import Mathlib

/-!
Shallow embedding of saleor/webhook/transport/synchronous/transport.py:
the synchronous webhook delivery engine.  Pure Python functions become Lean
functions; side effects (database writes, network calls, metric recording,
logging, cache access, task scheduling) are made explicit as a list of
`Effect` values returned alongside the result; exceptions become `Except`.
External collaborators (`send_webhook_using_http`, `json.loads`, the payload
generators, the webhook registry, the cache store, `parse_tax_data`) are
oracle fields of an `Env` record, so every theorem quantifies over their
behaviour.
-/

namespace SaleorSyncTransport

/-- `EventDeliveryStatus` from saleor.core: PENDING / SUCCESS / FAILED. -/
inductive EventDeliveryStatus where
  | pending
  | success
  | failed
deriving DecidableEq, Repr

/-- A JSON literal (leaf value). -/
inductive JLit where
  | null
  | lbool (b : Bool)
  | lnum (n : Int)
  | lstr (s : String)
deriving DecidableEq, Repr

/-- A parsed JSON value, the result type of `json.loads`.  Nesting is modelled
to depth two: this module never inspects the structure of a parsed body, it
only carries it around, so two levels are enough for every value it handles. -/
inductive JVal where
  | null
  | jbool (b : Bool)
  | jnum (n : Int)
  | jstr (s : String)
  | jarr (elems : List JLit)
  | jobj (fields : List (String × JLit))
deriving DecidableEq, Repr

/-- A Python dict used as a subscription payload or as webhook cache data. -/
abbrev PyDict := List (String × JVal)

/-- Python truthiness of an optional dict: `None` and the empty dict are falsy. -/
def dictTruthy : Option PyDict → Bool
  | none => false
  | some [] => false
  | some (_ :: _) => true

/-- Python truthiness of an optional string: `None` and `""` are falsy. -/
def strTruthy : Option String → Bool
  | none => false
  | some s => !(s = "")

/-- `x or default` for an optional numeric Python argument (0 is falsy). -/
def natOrDefault : Option Nat → Nat → Nat
  | none, d => d
  | some n, d => if n = 0 then d else n

/-- ASCII lowercasing of one character. -/
def lowerChar (c : Char) : Char :=
  if 65 ≤ c.toNat ∧ c.toNat ≤ 90 then Char.ofNat (c.toNat + 32) else c

/-- Python's `str.lower()` as applied to url schemes (ASCII strings). -/
def lowerStr (s : String) : String := ⟨s.data.map lowerChar⟩

/-- The target URL of a webhook, as decomposed by `urllib.parse.urlparse`:
only the scheme is inspected by this module. -/
structure Url where
  scheme : String
  rest : String
deriving DecidableEq, Repr

/-- `WebhookSchemes`: the allowed url schemes (HTTP and HTTPS). -/
def WEBHOOK_SCHEMES : List String := ["http", "https"]

/-- The subscriber descriptor (saleor.webhook.models.Webhook), read-only here. -/
structure Webhook where
  target_url : Url
  secret_key : Option String
  custom_headers : List (String × String)
  subscription_query : Option String
  app_id : Nat
deriving DecidableEq, Repr

/-- `EventPayload`: the immutable serialized event body. -/
structure EventPayload where
  payload : String
deriving DecidableEq, Repr

/-- `EventDelivery`: one logical delivery intent. -/
structure EventDelivery where
  status : EventDeliveryStatus
  event_type : String
  payload : EventPayload
  webhook : Webhook
deriving DecidableEq, Repr

/-- Modelled from the spec: `WebhookResponse` lives in webhook.transport.utils,
which is not part of the embedded sources.  Per the spec it is the ephemeral
value object returned by the transport adapter, with the content, a
SUCCESS/FAILED classification of the transport outcome (non-2xx, connection
error and timeout are all FAILED), and the HTTP status code when one was
received. -/
structure WebhookResponse where
  content : String
  status : EventDeliveryStatus
  response_status_code : Option Nat
deriving DecidableEq, Repr

/-- A database record written inside one `transaction.atomic` block. -/
inductive DbRecord where
  | payloadRec (p : EventPayload)
  | deliveryRec (d : EventDelivery)
deriving DecidableEq, Repr

/-- The side effects performed by the transport module, in program order. -/
inductive Effect where
  | deliveryUpdate (d : EventDelivery) (status : EventDeliveryStatus)
  | recordExternalRequest (url : Url) (responseStatus : EventDeliveryStatus)
  | createAttempt (taskId : Option String) (withSave : Bool)
  | httpCall (url : Url)
  | attemptUpdate (status : EventDeliveryStatus)
  | reportAttempt
  | saveUnsuccessfulAttempt
  | clearSuccessfulDelivery
  | spanError
  | logInfo (tag : String)
  | logWarning (tag : String)
  | logError (tag : String)
  | dbWrite (records : List DbRecord)
  | createFailedTransactionEvent (cause : String)
  | recalcRefundable
  | scheduleRetry (countdown : Nat)
  | createTransactionEvent (data : Option JVal)
  | scheduleTask
deriving DecidableEq, Repr

/-- The result of `parse_tax_data` when validation succeeds (external type
`saleor.core.taxes.TaxData`; kept opaque as a wrapped JSON value). -/
structure TaxData where
  value : JVal
deriving DecidableEq, Repr

/-- The environment of external collaborators.  Each field models one import
of transport.py that is outside the embedded sources:
- `send` is `send_webhook_using_http` (modelled from the spec: one blocking
  HTTP POST of (url, message, domain, signature, event type, timeout, custom
  headers) normalized into a `WebhookResponse`);
- `parseJson` is `json.loads`, `none` meaning `JSONDecodeError`;
- `sign` is `signature_for_payload`;
- `syncTimeout` is `settings.WEBHOOK_SYNC_TIMEOUT`;
- `cacheDefaultTimeout` is `WEBHOOK_CACHE_DEFAULT_TIMEOUT`;
- `typesMap` is the key set of `WEBHOOK_TYPES_MAP`;
- `generateFromSubscription` is `generate_payload_from_subscription` for a
  fixed subscribable object and request context (the context carries no
  information visible to this module);
- `dumps` is `json.dumps`;
- `parse_tax_data` validates a parsed body against the tax schema, `none`
  meaning `ValidationError`;
- `get_webhooks_for_event` is the registry lookup, in registry order;
- `get_pregenerated_subscription_payload` looks a webhook up in the
  pregenerated payload mapping;
- `get_webhook_for_app` is `get_webhooks_for_event(event, apps_ids=[pk]).first()`;
- `generate_transaction_action_request_payload` is the static transaction
  payload produced for the given action data and requestor. -/
structure Env where
  domain : String
  sign : String → Option String → String
  send : Url → String → String → String → String → Nat → List (String × String) → WebhookResponse
  parseJson : String → Option JVal
  syncTimeout : Nat
  cacheDefaultTimeout : Nat
  typesMap : List String
  generateFromSubscription : String → Webhook → Option PyDict
  dumps : PyDict → String
  parse_tax_data : Option JVal → Nat → Option TaxData
  get_webhooks_for_event : String → List Webhook
  get_pregenerated_subscription_payload : Webhook → Option PyDict
  get_webhook_for_app : Nat → String → Option Webhook
  generate_transaction_action_request_payload : String

/-- The raw HTTP response obtained for a delivery: the single call to
`send_webhook_using_http` made by `_send_webhook_request_sync` on its
happy path. -/
def rawSendResult (env : Env) (delivery : EventDelivery) (timeout : Nat) : WebhookResponse :=
  env.send delivery.webhook.target_url delivery.payload.payload env.domain
    (env.sign delivery.payload.payload delivery.webhook.secret_key)
    delivery.event_type timeout delivery.webhook.custom_headers

/-- `_send_webhook_request_sync(delivery, timeout, attempt)`.
Returns the `(response, response_data)` pair (or the `ValueError` raised on
an unsupported scheme) together with the effects in program order:
1. an unsupported scheme marks the delivery FAILED, records the external
   request metric with the zero-success placeholder response and raises;
2. otherwise an (unsaved) attempt is created when none was supplied, then the
   single blocking HTTP call happens and `json.loads` runs on its content —
   a `JSONDecodeError` forces status FAILED with no parsed body, any parsed
   content is kept as `response_data` whatever the status;
3. the span is marked errored on FAILED, the metric is recorded, the attempt
   and delivery are updated and reported, the unsuccessful attempt is saved
   and the successful delivery cleared. -/
def _send_webhook_request_sync (env : Env) (delivery : EventDelivery)
    (timeout : Nat) (attempt : Option String) :
    Except String (WebhookResponse × Option JVal) × List Effect :=
  if lowerStr delivery.webhook.target_url.scheme ∈ WEBHOOK_SCHEMES then
    let attemptEffects : List Effect :=
      match attempt with
      | none => [Effect.createAttempt none false]
      | some _ => []
    let resp := rawSendResult env delivery timeout
    let parsed := env.parseJson resp.content
    let finalResp : WebhookResponse :=
      match parsed with
      | none => { resp with status := EventDeliveryStatus.failed }
      | some _ => resp
    let response_data : Option JVal :=
      match parsed with
      | none => none
      | some v => some v
    let parseEffects : List Effect :=
      match parsed with
      | none => [Effect.logInfo "failed-parsing-json-response"]
      | some _ =>
        if resp.status = EventDeliveryStatus.failed then
          [Effect.logInfo "failed-request"]
        else []
    let spanEffects : List Effect :=
      if finalResp.status = EventDeliveryStatus.failed then [Effect.spanError] else []
    (Except.ok (finalResp, response_data),
      attemptEffects ++ [Effect.httpCall delivery.webhook.target_url] ++ parseEffects ++ spanEffects
        ++ [Effect.recordExternalRequest delivery.webhook.target_url finalResp.status,
            Effect.attemptUpdate finalResp.status,
            Effect.deliveryUpdate delivery finalResp.status,
            Effect.reportAttempt,
            Effect.saveUnsuccessfulAttempt,
            Effect.clearSuccessfulDelivery])
  else
    (Except.error "Unknown webhook scheme",
      [Effect.deliveryUpdate delivery EventDeliveryStatus.failed,
       Effect.recordExternalRequest delivery.webhook.target_url EventDeliveryStatus.failed])

/-- `send_webhook_request_sync(delivery, timeout)`: the thin wrapper the
business layer consumes — the parsed body when the status is SUCCESS,
`None` otherwise. -/
def send_webhook_request_sync (env : Env) (delivery : EventDelivery) (timeout : Nat) :
    Except String (Option JVal) × List Effect :=
  match _send_webhook_request_sync env delivery timeout none with
  | (Except.error e, eff) => (Except.error e, eff)
  | (Except.ok (response, response_data), eff) =>
    (Except.ok (if response.status = EventDeliveryStatus.success then response_data else none),
     eff)

/-- The urls of the network calls among a list of effects. -/
def callUrls (effects : List Effect) : List Url :=
  effects.filterMap fun e =>
    match e with
    | Effect.httpCall u => some u
    | _ => none

/-- The number of warnings logged among a list of effects. -/
def warnCount (effects : List Effect) : Nat :=
  (effects.filterMap fun e =>
    match e with
    | Effect.logWarning t => some t
    | _ => none).length

/-- `create_delivery_for_subscription_sync_event(event_type, subscribable_object,
webhook, requestor, request, allow_replica, pregenerated_payload, with_save)`.
The subscribable object, the requestor, the replica flag and the request
context do not vary inside the embedded module beyond what `Env` fixes, so
they are folded into `env`.  Control flow from the source:
- an event type outside `WEBHOOK_TYPES_MAP` only logs and returns `None`;
- a falsy `pregenerated_payload` means the payload is produced by the
  subscription generator, a truthy one is used as is;
- falsy data only logs and returns `None`;
- otherwise the `EventPayload` and the PENDING `EventDelivery` are built and,
  when `with_save` holds, written together inside one `transaction.atomic`
  block (one `Effect.dbWrite` group). -/
def create_delivery_for_subscription_sync_event (env : Env) (event_type : String)
    (webhook : Webhook) (pregenerated_payload : Option PyDict) (with_save : Bool) :
    Option EventDelivery × List Effect :=
  if event_type ∈ env.typesMap then
    let data : Option PyDict :=
      if dictTruthy pregenerated_payload then pregenerated_payload
      else env.generateFromSubscription event_type webhook
    match data with
    | none => (none, [Effect.logInfo "no-payload-generated"])
    | some [] => (none, [Effect.logInfo "no-payload-generated"])
    | some (kv :: rest) =>
      let event_payload : EventPayload := ⟨env.dumps (kv :: rest)⟩
      let event_delivery : EventDelivery :=
        ⟨EventDeliveryStatus.pending, event_type, event_payload, webhook⟩
      let writes : List Effect :=
        if with_save then
          [Effect.dbWrite [DbRecord.payloadRec event_payload,
                           DbRecord.deliveryRec event_delivery]]
        else []
      (some event_delivery, writes)
  else
    (none, [Effect.logInfo "event-not-subscribable"])

/-- `trigger_webhook_sync(event_type, payload, webhook, allow_replica, ...)`:
build the delivery (by subscription query or from the static payload string)
and send it synchronously.  A falsy timeout argument falls back to
`settings.WEBHOOK_SYNC_TIMEOUT`. -/
def trigger_webhook_sync (env : Env) (event_type : String) (payload : String)
    (webhook : Webhook) (timeout : Option Nat)
    (pregenerated_subscription_payload : Option PyDict) :
    Except String (Option JVal) × List Effect :=
  let built : Option EventDelivery × List Effect :=
    if strTruthy webhook.subscription_query then
      create_delivery_for_subscription_sync_event env event_type webhook
        pregenerated_subscription_payload false
    else
      (some ⟨EventDeliveryStatus.pending, event_type, ⟨payload⟩, webhook⟩, [])
  match built with
  | (none, eff) => (Except.ok none, eff)
  | (some delivery, eff) =>
    let t := natOrDefault timeout env.syncTimeout
    match send_webhook_request_sync env delivery t with
    | (r, eff2) => (r, eff ++ eff2)

/-- The key of the webhook response cache.  Modelled from the spec:
`generate_cache_key_for_webhook` lives in webhook.transport.utils, outside
the embedded sources; per the spec the key is derived from
`(cache_data, target_url, event_type, app_id)` and from nothing else. -/
structure CacheKey where
  cache_data : PyDict
  target_url : Url
  event_type : String
  app_id : Nat
deriving DecidableEq, Repr

/-- The webhook response cache: entries with their expiry instants. -/
structure CacheState where
  entries : List (CacheKey × JVal × Nat)
deriving DecidableEq, Repr

/-- `cache.get(key)` at instant `now`: the first live entry for the key. -/
def cacheGet (st : CacheState) (k : CacheKey) (now : Nat) : Option JVal :=
  (st.entries.find? fun e => decide (e.1 = k) && decide (now < e.2.2)).map
    fun e => e.2.1

/-- `cache.set(key, value, timeout)` at instant `now`. -/
def cacheSet (st : CacheState) (k : CacheKey) (v : JVal) (timeout now : Nat) : CacheState :=
  ⟨(k, v, now + timeout) :: st.entries⟩

/-- `trigger_webhook_sync_if_not_cached(event_type, payload, webhook,
cache_data, ...)` at instant `now` with cache state `st`:
- on a cache hit, the cached parsed body is returned unchanged with no
  further effect;
- on a miss, `trigger_webhook_sync` runs; a non-`None` body is stored under
  the key with `cache_timeout or WEBHOOK_CACHE_DEFAULT_TIMEOUT`, a `None`
  body is not stored. -/
def trigger_webhook_sync_if_not_cached (env : Env) (event_type : String)
    (payload : String) (webhook : Webhook) (cache_data : PyDict)
    (request_timeout : Option Nat) (cache_timeout : Option Nat)
    (pregenerated_subscription_payload : Option PyDict)
    (now : Nat) (st : CacheState) :
    Except String (Option JVal) × CacheState × List Effect :=
  let cache_key : CacheKey := ⟨cache_data, webhook.target_url, event_type, webhook.app_id⟩
  match cacheGet st cache_key now with
  | some v => (Except.ok (some v), st, [])
  | none =>
    match trigger_webhook_sync env event_type payload webhook request_timeout
        pregenerated_subscription_payload with
    | (Except.error e, eff) => (Except.error e, st, eff)
    | (Except.ok none, eff) => (Except.ok none, st, eff)
    | (Except.ok (some v), eff) =>
      (Except.ok (some v),
       cacheSet st cache_key v (natOrDefault cache_timeout env.cacheDefaultTimeout) now,
       eff)

/-- The body of the `for webhook in webhooks` loop of
`trigger_taxes_all_webhooks_sync`, recursing over the remaining webhooks.
`event_payload` is the lazily built shared static payload (`None` until the
first non-subscription webhook; the lazily built shared request context
carries no information visible to this module and is omitted).  `gen` is the
result of the `generate_payload` callable. -/
def taxLoop (env : Env) (event_type : String) (gen : String)
    (expected_lines_count : Nat) :
    List Webhook → Option EventPayload →
    Except String (Option TaxData) × List Effect
  | [], _ => (Except.ok none, [])
  | webhook :: rest, event_payload =>
    if strTruthy webhook.subscription_query then
      let pregenerated_payload := env.get_pregenerated_subscription_payload webhook
      match create_delivery_for_subscription_sync_event env event_type webhook
          pregenerated_payload false with
      | (none, eff1) => (Except.ok none, eff1)
      | (some delivery, eff1) =>
        match send_webhook_request_sync env delivery env.syncTimeout with
        | (Except.error e, eff2) => (Except.error e, eff1 ++ eff2)
        | (Except.ok response_data, eff2) =>
          match env.parse_tax_data response_data expected_lines_count with
          | none =>
            let next := taxLoop env event_type gen expected_lines_count rest event_payload
            (next.1, eff1 ++ eff2 ++ [Effect.logWarning "invalid-tax-response"] ++ next.2)
          | some parsed_response => (Except.ok (some parsed_response), eff1 ++ eff2)
    else
      let event_payload2 : EventPayload :=
        match event_payload with
        | none => ⟨gen⟩
        | some p => p
      let delivery : EventDelivery :=
        ⟨EventDeliveryStatus.pending, event_type, event_payload2, webhook⟩
      match send_webhook_request_sync env delivery env.syncTimeout with
      | (Except.error e, eff2) => (Except.error e, eff2)
      | (Except.ok response_data, eff2) =>
        match env.parse_tax_data response_data expected_lines_count with
        | none =>
          let next := taxLoop env event_type gen expected_lines_count rest (some event_payload2)
          (next.1, eff2 ++ [Effect.logWarning "invalid-tax-response"] ++ next.2)
        | some parsed_response => (Except.ok (some parsed_response), eff2)

/-- `trigger_taxes_all_webhooks_sync(event_type, generate_payload,
expected_lines_count, ...)`: try the registered webhooks sequentially,
first structurally valid tax response wins. -/
def trigger_taxes_all_webhooks_sync (env : Env) (event_type : String)
    (gen : String) (expected_lines_count : Nat) :
    Except String (Option TaxData) × List Effect :=
  taxLoop env event_type gen expected_lines_count
    (env.get_webhooks_for_event event_type) none

/-- The celery task context of `handle_transaction_request_task`:
`self.request.retries` together with the `retry_backoff=10` and
`max_retries=5` settings of the task decorator. -/
structure CeleryTask where
  retries : Nat
  max_retries : Nat
  retry_backoff : Nat
deriving DecidableEq, Repr

/-- Modelled from the spec: `handle_webhook_retry` lives in
webhook.transport.utils, outside the embedded sources.  Per the spec it
triggers the task framework's own retry mechanism with exponential backoff
up to the task's fixed maximum attempt count; triggering a celery retry
interrupts the running task, so the result is `some countdown` (task
interrupted, retry scheduled) while retries remain and `none` (maximum
exceeded, task continues) afterwards. -/
def handle_webhook_retry (task : CeleryTask) : Option Nat :=
  if task.retries < task.max_retries then
    some (task.retry_backoff * 2 ^ task.retries)
  else none

/-- The ways `handle_transaction_request_task` can end. -/
inductive TaskOutcome where
  | missingRequestEvent
  | missingDelivery
  | schemeError (msg : String)
  | retried (countdown : Nat)
  | completed (data : Option JVal)
deriving DecidableEq, Repr

/-- `handle_transaction_request_task(self, delivery_id, request_event_id)`.
`request_event` and `delivery` are the results of the two lookups by id
(`None` when the record vanished).  After a missing-prerequisite early exit
the task creates an attempt, dispatches synchronously and, on an HTTP status
code of 500 or more, hands over to `handle_webhook_retry` — the scheduled
retry interrupts the task, so no transaction event is created from that
attempt; once retries are exhausted, and on every other outcome, the
response is converted into a finalized transaction event. -/
def handle_transaction_request_task (env : Env) (task : CeleryTask) :
    Option Nat → Option EventDelivery → TaskOutcome × List Effect
  | none, _ => (TaskOutcome.missingRequestEvent, [Effect.logError "missing-request-event"])
  | some _, none =>
    (TaskOutcome.missingDelivery,
     [Effect.recalcRefundable, Effect.logError "missing-delivery"])
  | some _, some dl =>
    match _send_webhook_request_sync env dl env.syncTimeout (some "task-id") with
    | (Except.error e, eff) =>
      (TaskOutcome.schemeError e, [Effect.createAttempt (some "task-id") true] ++ eff)
    | (Except.ok (response, response_data), eff) =>
      let isServerError : Bool :=
        match response.response_status_code with
        | some code => decide (500 ≤ code)
        | none => false
      if isServerError then
        match handle_webhook_retry task with
        | some countdown =>
          (TaskOutcome.retried countdown,
           [Effect.createAttempt (some "task-id") true] ++ eff ++
             [Effect.scheduleRetry countdown])
        | none =>
          (TaskOutcome.completed none,
           [Effect.createAttempt (some "task-id") true] ++ eff ++
             [Effect.createTransactionEvent none])
      else
        (TaskOutcome.completed response_data,
         [Effect.createAttempt (some "task-id") true] ++ eff ++
           [Effect.createTransactionEvent response_data])

/-- `TransactionActionData`: only the owning-app reference is inspected by the
embedded module (the triggering event and transaction are opaque here). -/
structure TransactionActionData where
  transaction_app_owner : Option Nat
deriving DecidableEq, Repr

/-- `trigger_transaction_request(transaction_data, event_type, requestor)`.
- no owning app, or no webhook registered for that app and event type:
  synthesize a failed transaction event, recompute the checkout's refundable
  amount and stop;
- a subscription webhook builds its delivery through the factory with
  `with_save=True` (a `PaymentError` raised by the payload generator is
  caught and lands in the same cannot-generate-payload branch as a generator
  that produced no data, so the two are modelled alike);
- a non-subscription webhook persists the static payload and its delivery
  together in one `transaction.atomic` block;
- with a delivery in hand, the retryable background task is scheduled. -/
def trigger_transaction_request (env : Env) (transaction_data : TransactionActionData)
    (event_type : String) : List Effect :=
  match transaction_data.transaction_app_owner with
  | none =>
    [Effect.createFailedTransactionEvent "transaction-not-attached-to-app",
     Effect.recalcRefundable]
  | some appPk =>
    match env.get_webhook_for_app appPk event_type with
    | none =>
      [Effect.createFailedTransactionEvent "cannot-find-webhook",
       Effect.recalcRefundable]
    | some webhook =>
      if strTruthy webhook.subscription_query then
        match create_delivery_for_subscription_sync_event env event_type webhook
            none true with
        | (none, eff) =>
          eff ++ [Effect.createFailedTransactionEvent "cannot-generate-payload",
                  Effect.recalcRefundable]
        | (some _, eff) => eff ++ [Effect.scheduleTask]
      else
        let payload := env.generate_transaction_action_request_payload
        let event_payload : EventPayload := ⟨payload⟩
        let delivery : EventDelivery :=
          ⟨EventDeliveryStatus.pending, event_type, event_payload, webhook⟩
        [Effect.dbWrite [DbRecord.payloadRec event_payload,
                         DbRecord.deliveryRec delivery],
         Effect.scheduleTask]

/-! ### Derived notions used by the theorems -/

/-- The scheme check of `_send_webhook_request_sync`: the webhook's target url
scheme, lowercased, is http or https. -/
def schemeOk (w : Webhook) : Prop :=
  lowerStr w.target_url.scheme ∈ WEBHOOK_SCHEMES

instance (w : Webhook) : Decidable (schemeOk w) := by
  unfold schemeOk; infer_instance

/-- The parsed body computed by `_send_webhook_request_sync` on its happy
path: `json.loads` of the raw response content, `none` on a decode error. -/
def sendParsed (env : Env) (delivery : EventDelivery) (timeout : Nat) : Option JVal :=
  env.parseJson (rawSendResult env delivery timeout).content

/-- The response as returned by `_send_webhook_request_sync` on its happy
path: the raw response, with the status forced to FAILED when its content
did not parse as JSON. -/
def sendFinalResp (env : Env) (delivery : EventDelivery) (timeout : Nat) : WebhookResponse :=
  match env.parseJson (rawSendResult env delivery timeout).content with
  | none => { rawSendResult env delivery timeout with status := EventDeliveryStatus.failed }
  | some _ => rawSendResult env delivery timeout

/-- The effect trace of `_send_webhook_request_sync` on its happy path. -/
def okEffects (env : Env) (delivery : EventDelivery) (timeout : Nat)
    (attempt : Option String) : List Effect :=
  (match attempt with
    | none => [Effect.createAttempt none false]
    | some _ => []) ++
  [Effect.httpCall delivery.webhook.target_url] ++
  (match env.parseJson (rawSendResult env delivery timeout).content with
    | none => [Effect.logInfo "failed-parsing-json-response"]
    | some _ =>
      if (rawSendResult env delivery timeout).status = EventDeliveryStatus.failed then
        [Effect.logInfo "failed-request"]
      else []) ++
  (if (sendFinalResp env delivery timeout).status = EventDeliveryStatus.failed then
    [Effect.spanError]
  else []) ++
  [Effect.recordExternalRequest delivery.webhook.target_url
      (sendFinalResp env delivery timeout).status,
   Effect.attemptUpdate (sendFinalResp env delivery timeout).status,
   Effect.deliveryUpdate delivery (sendFinalResp env delivery timeout).status,
   Effect.reportAttempt,
   Effect.saveUnsuccessfulAttempt,
   Effect.clearSuccessfulDelivery]

/-- The effect trace of `_send_webhook_request_sync` on an unsupported
scheme. -/
def errEffects (delivery : EventDelivery) : List Effect :=
  [Effect.deliveryUpdate delivery EventDeliveryStatus.failed,
   Effect.recordExternalRequest delivery.webhook.target_url EventDeliveryStatus.failed]

/-- What `send_webhook_request_sync` hands to the business layer on its
happy path: the parsed body if the final status is SUCCESS, else `none`. -/
def syncResult (env : Env) (delivery : EventDelivery) (timeout : Nat) : Option JVal :=
  if (sendFinalResp env delivery timeout).status = EventDeliveryStatus.success then
    sendParsed env delivery timeout
  else none

/-- The delivery the tax fallback loop builds for one webhook. -/
def taxDelivery (env : Env) (event_type gen : String) (w : Webhook) : Option EventDelivery :=
  if strTruthy w.subscription_query then
    (create_delivery_for_subscription_sync_event env event_type w
      (env.get_pregenerated_subscription_payload w) false).1
  else some ⟨EventDeliveryStatus.pending, event_type, ⟨gen⟩, w⟩

/-- The validated tax answer one webhook contributes to the fallback loop:
its dispatched body run through `parse_tax_data` (`none` when the delivery
could not be built, the dispatch failed, or validation failed). -/
def taxOutcome (env : Env) (event_type gen : String) (expected_lines_count : Nat)
    (w : Webhook) : Option TaxData :=
  match taxDelivery env event_type gen w with
  | none => none
  | some d => env.parse_tax_data (syncResult env d env.syncTimeout) expected_lines_count

/-! ### Concrete instances used by the witnesses -/

def urlA : Url := ⟨"http", "a.example/hook"⟩

def urlB : Url := ⟨"http", "b.example/hook"⟩

def urlF : Url := ⟨"ftp", "x"⟩

def webhookStatic : Webhook := ⟨urlA, none, [], none, 1⟩

def webhookStatic2 : Webhook := ⟨urlB, none, [], none, 2⟩

def webhookSub : Webhook := ⟨urlA, none, [], some "q", 3⟩

def webhookF : Webhook := ⟨urlF, none, [], none, 4⟩

def deliveryA : EventDelivery :=
  ⟨EventDeliveryStatus.pending, "tax-event", ⟨"body"⟩, webhookStatic⟩

def deliveryF : EventDelivery :=
  ⟨EventDeliveryStatus.pending, "tax-event", ⟨"body"⟩, webhookF⟩

/-- A concrete environment: the subscriber answers every call with HTTP 400
and the JSON body `[1]`. -/
def env0 : Env where
  domain := "example.com"
  sign := fun _ _ => "sig"
  send := fun _ _ _ _ _ _ _ => ⟨"[1]", EventDeliveryStatus.failed, some 400⟩
  parseJson := fun s => if s = "[1]" then some (JVal.jarr [JLit.lnum 1]) else none
  syncTimeout := 30
  cacheDefaultTimeout := 60
  typesMap := ["tax-event"]
  generateFromSubscription := fun _ _ => some [("k", JVal.jnum 1)]
  dumps := fun _ => "dumped"
  parse_tax_data := fun d _ =>
    match d with
    | some v => some ⟨v⟩
    | none => none
  get_webhooks_for_event := fun _ => []
  get_pregenerated_subscription_payload := fun _ => none
  get_webhook_for_app := fun _ _ => none
  generate_transaction_action_request_payload := "static-payload"

/-- Like `env0` but the subscriber answers 200 with the JSON body `[1]`. -/
def envOk : Env :=
  { env0 with send := fun _ _ _ _ _ _ _ => ⟨"[1]", EventDeliveryStatus.success, some 200⟩ }

/-- Like `env0` but the first webhook's url answers with an invalid body and
the second with a valid one; the registry lists both, in order. -/
def envTax : Env :=
  { env0 with
    send := fun u _ _ _ _ _ _ =>
      if u = urlB then ⟨"[1]", EventDeliveryStatus.success, some 200⟩
      else ⟨"bad", EventDeliveryStatus.failed, some 400⟩
    get_webhooks_for_event := fun _ => [webhookStatic, webhookStatic2] }

/-- Like `env0` but with one subscription webhook registered whose payload
generator produces no data. -/
def envAbort : Env :=
  { env0 with
    get_webhooks_for_event := fun _ => [webhookSub]
    generateFromSubscription := fun _ _ => none }

/-- Like `env0` but the subscriber answers 503 with the JSON body `[1]`. -/
def env503 : Env :=
  { env0 with
    send := fun _ _ _ _ _ _ _ => ⟨"[1]", EventDeliveryStatus.failed, some 503⟩ }

/-- A fresh celery task context: no retries consumed yet. -/
def task0 : CeleryTask := ⟨0, 5, 10⟩

/-- Like `env0` but the app lookup finds a non-subscription webhook. -/
def envTrans : Env :=
  { env0 with get_webhook_for_app := fun _ _ => some webhookStatic }

/-! ### Equation lemmas for the dispatcher -/

theorem _send_eq_ok (env : Env) (delivery : EventDelivery) (timeout : Nat)
    (attempt : Option String) (h : schemeOk delivery.webhook) :
    _send_webhook_request_sync env delivery timeout attempt =
      (Except.ok (sendFinalResp env delivery timeout, sendParsed env delivery timeout),
       okEffects env delivery timeout attempt) := by
  have h2 : lowerStr delivery.webhook.target_url.scheme ∈ WEBHOOK_SCHEMES := h
  unfold _send_webhook_request_sync
  rw [if_pos h2]
  unfold okEffects
  cases hp : env.parseJson (rawSendResult env delivery timeout).content <;>
    simp [sendFinalResp, sendParsed, hp]

theorem _send_eq_err (env : Env) (delivery : EventDelivery) (timeout : Nat)
    (attempt : Option String) (h : ¬ schemeOk delivery.webhook) :
    _send_webhook_request_sync env delivery timeout attempt =
      (Except.error "Unknown webhook scheme", errEffects delivery) := by
  have h2 : ¬ lowerStr delivery.webhook.target_url.scheme ∈ WEBHOOK_SCHEMES := h
  unfold _send_webhook_request_sync
  rw [if_neg h2]
  rfl

theorem send_sync_eq_ok (env : Env) (delivery : EventDelivery) (timeout : Nat)
    (h : schemeOk delivery.webhook) :
    send_webhook_request_sync env delivery timeout =
      (Except.ok (syncResult env delivery timeout), okEffects env delivery timeout none) := by
  unfold send_webhook_request_sync syncResult
  rw [_send_eq_ok env delivery timeout none h]

theorem send_sync_eq_err (env : Env) (delivery : EventDelivery) (timeout : Nat)
    (h : ¬ schemeOk delivery.webhook) :
    send_webhook_request_sync env delivery timeout =
      (Except.error "Unknown webhook scheme", errEffects delivery) := by
  unfold send_webhook_request_sync
  rw [_send_eq_err env delivery timeout none h]

/-- If the dispatcher did not raise, the scheme was http(s). -/
theorem _send_ok_schemeOk (env : Env) (delivery : EventDelivery) (timeout : Nat)
    (attempt : Option String) (r : WebhookResponse) (pd : Option JVal)
    (h : (_send_webhook_request_sync env delivery timeout attempt).1 = Except.ok (r, pd)) :
    schemeOk delivery.webhook := by
  by_contra hn
  rw [_send_eq_err env delivery timeout attempt hn] at h
  exact absurd h (by simp)

/-! ### Effect-trace bookkeeping lemmas -/

theorem callUrls_append (a b : List Effect) :
    callUrls (a ++ b) = callUrls a ++ callUrls b := by
  unfold callUrls; exact List.filterMap_append a b _

theorem warnCount_append (a b : List Effect) :
    warnCount (a ++ b) = warnCount a + warnCount b := by
  unfold warnCount; rw [List.filterMap_append]; exact List.length_append _ _

theorem callUrls_okEffects (env : Env) (delivery : EventDelivery) (timeout : Nat)
    (attempt : Option String) :
    callUrls (okEffects env delivery timeout attempt) = [delivery.webhook.target_url] := by
  unfold okEffects callUrls
  cases attempt <;>
    cases env.parseJson (rawSendResult env delivery timeout).content <;>
      split <;> simp_all <;> split <;> simp_all

theorem warnCount_okEffects (env : Env) (delivery : EventDelivery) (timeout : Nat)
    (attempt : Option String) :
    warnCount (okEffects env delivery timeout attempt) = 0 := by
  unfold okEffects warnCount
  cases attempt <;>
    cases env.parseJson (rawSendResult env delivery timeout).content <;>
      split <;> simp_all <;> split <;> simp_all

theorem scheduleRetry_not_in_okEffects (env : Env) (delivery : EventDelivery)
    (timeout : Nat) (attempt : Option String) (c : Nat) :
    Effect.scheduleRetry c ∉ okEffects env delivery timeout attempt := by
  unfold okEffects
  cases attempt <;>
    cases env.parseJson (rawSendResult env delivery timeout).content <;>
      split <;> simp_all <;> split <;> simp_all

theorem createTransactionEvent_not_in_okEffects (env : Env) (delivery : EventDelivery)
    (timeout : Nat) (attempt : Option String) (d : Option JVal) :
    Effect.createTransactionEvent d ∉ okEffects env delivery timeout attempt := by
  unfold okEffects
  cases attempt <;>
    cases env.parseJson (rawSendResult env delivery timeout).content <;>
      split <;> simp_all <;> split <;> simp_all

theorem callUrls_createDelivery (env : Env) (event_type : String) (webhook : Webhook)
    (pre : Option PyDict) (with_save : Bool) :
    callUrls (create_delivery_for_subscription_sync_event env event_type webhook
      pre with_save).2 = [] := by
  unfold create_delivery_for_subscription_sync_event callUrls
  split <;> [skip; rfl]
  rcases hd : (if dictTruthy pre then pre
    else env.generateFromSubscription event_type webhook) with _ | ⟨_ | ⟨kv, rest⟩⟩ <;>
    simp [hd] <;> split <;> simp

theorem warnCount_createDelivery (env : Env) (event_type : String) (webhook : Webhook)
    (pre : Option PyDict) (with_save : Bool) :
    warnCount (create_delivery_for_subscription_sync_event env event_type webhook
      pre with_save).2 = 0 := by
  unfold create_delivery_for_subscription_sync_event warnCount
  split <;> [skip; rfl]
  rcases hd : (if dictTruthy pre then pre
    else env.generateFromSubscription event_type webhook) with _ | ⟨_ | ⟨kv, rest⟩⟩ <;>
    simp [hd] <;> split <;> simp

/-- A delivery built by the factory is bound to the webhook it was built
for. -/
theorem createDelivery_webhook (env : Env) (event_type : String) (w : Webhook)
    (pre : Option PyDict) (s : Bool) (d : EventDelivery)
    (h : (create_delivery_for_subscription_sync_event env event_type w pre s).1 = some d) :
    d.webhook = w := by
  unfold create_delivery_for_subscription_sync_event at h
  by_cases ht : event_type ∈ env.typesMap
  · rw [if_pos ht] at h
    rcases hd : (if dictTruthy pre then pre
      else env.generateFromSubscription event_type w) with _ | ⟨_ | ⟨kv, rest⟩⟩ <;>
      rw [hd] at h <;> simp at h
    rw [show d = ⟨EventDeliveryStatus.pending, event_type, ⟨env.dumps (kv :: rest)⟩, w⟩
      from h.symm]
  · rw [if_neg ht] at h
    simp at h

theorem callUrls_warnSingleton (t : String) : callUrls [Effect.logWarning t] = [] := rfl

theorem warnCount_warnSingleton (t : String) : warnCount [Effect.logWarning t] = 1 := rfl

theorem callUrls_cons_warn (t : String) (l : List Effect) :
    callUrls (Effect.logWarning t :: l) = callUrls l := by
  simp [callUrls]

theorem warnCount_cons_warn (t : String) (l : List Effect) :
    warnCount (Effect.logWarning t :: l) = warnCount l + 1 := by
  simp [warnCount]

/-! ### Step lemmas for the tax fallback loop -/

theorem taxLoop_cons_invalid (env : Env) (et gen : String) (n : Nat) (w : Webhook)
    (rest : List Webhook) (ep : Option EventPayload)
    (hep : ep = none ∨ ep = some ⟨gen⟩)
    (hw : taxDelivery env et gen w ≠ none) (hs : schemeOk w)
    (ho : taxOutcome env et gen n w = none) :
    ∃ ep2, (ep2 = none ∨ ep2 = some ⟨gen⟩) ∧
      (taxLoop env et gen n (w :: rest) ep).1 = (taxLoop env et gen n rest ep2).1 ∧
      callUrls (taxLoop env et gen n (w :: rest) ep).2 =
        w.target_url :: callUrls (taxLoop env et gen n rest ep2).2 ∧
      warnCount (taxLoop env et gen n (w :: rest) ep).2 =
        warnCount (taxLoop env et gen n rest ep2).2 + 1 := by
  by_cases hsub : strTruthy w.subscription_query = true
  · -- subscription-query branch
    rcases hcd : create_delivery_for_subscription_sync_event env et w
        (env.get_pregenerated_subscription_payload w) false with ⟨od, eff1⟩
    have hd1 : (create_delivery_for_subscription_sync_event env et w
        (env.get_pregenerated_subscription_payload w) false).1 = od := by rw [hcd]
    rcases od with _ | d
    · exact absurd (by unfold taxDelivery; rw [if_pos hsub, hd1]) hw
    · have hwd : d.webhook = w := createDelivery_webhook env et w _ false d hd1
      have hsd : schemeOk d.webhook := by rw [hwd]; exact hs
      have hparse : env.parse_tax_data (syncResult env d env.syncTimeout) n = none := by
        unfold taxOutcome at ho
        unfold taxDelivery at ho
        rw [if_pos hsub, hd1] at ho
        exact ho
      refine ⟨ep, hep, ?_⟩
      simp only [taxLoop, hsub, if_true, hcd, send_sync_eq_ok env d env.syncTimeout hsd,
          hparse]
      have heff1 : eff1 = (create_delivery_for_subscription_sync_event env et w
          (env.get_pregenerated_subscription_payload w) false).2 := by rw [hcd]
      refine ⟨by trivial, ?_, ?_⟩
      · simp [callUrls_append, heff1, callUrls_createDelivery,
          callUrls_okEffects, callUrls_warnSingleton, callUrls_cons_warn, hwd]
      · simp [warnCount_append, heff1, warnCount_createDelivery, warnCount_okEffects,
          warnCount_warnSingleton, warnCount_cons_warn]
  · -- static-payload branch
    have hsub' : strTruthy w.subscription_query = false := by
      revert hsub; cases strTruthy w.subscription_query <;> simp
    have hdel : taxDelivery env et gen w =
        some ⟨EventDeliveryStatus.pending, et, ⟨gen⟩, w⟩ := by
      unfold taxDelivery
      rw [hsub']
      simp
    have hparse : env.parse_tax_data
        (syncResult env ⟨EventDeliveryStatus.pending, et, ⟨gen⟩, w⟩ env.syncTimeout) n =
          none := by
      unfold taxOutcome at ho
      rw [hdel] at ho
      exact ho
    have hss : schemeOk
        (⟨EventDeliveryStatus.pending, et, ⟨gen⟩, w⟩ : EventDelivery).webhook := hs
    refine ⟨some ⟨gen⟩, Or.inr rfl, ?_⟩
    rcases hep with rfl | rfl <;>
      simp only [taxLoop, hsub', Bool.false_eq_true, if_false,
        send_sync_eq_ok env _ env.syncTimeout hss, hparse] <;>
      refine ⟨by trivial, by simp [callUrls_append, callUrls_okEffects,
        callUrls_warnSingleton, callUrls_cons_warn], ?_⟩ <;>
      simp [warnCount_append, warnCount_okEffects, warnCount_warnSingleton,
        warnCount_cons_warn]

theorem taxLoop_cons_valid (env : Env) (et gen : String) (n : Nat) (w : Webhook)
    (rest : List Webhook) (ep : Option EventPayload) (td : TaxData)
    (hep : ep = none ∨ ep = some ⟨gen⟩)
    (hs : schemeOk w)
    (ho : taxOutcome env et gen n w = some td) :
    (taxLoop env et gen n (w :: rest) ep).1 = Except.ok (some td) ∧
    callUrls (taxLoop env et gen n (w :: rest) ep).2 = [w.target_url] := by
  by_cases hsub : strTruthy w.subscription_query = true
  · rcases hcd : create_delivery_for_subscription_sync_event env et w
        (env.get_pregenerated_subscription_payload w) false with ⟨od, eff1⟩
    have hd1 : (create_delivery_for_subscription_sync_event env et w
        (env.get_pregenerated_subscription_payload w) false).1 = od := by rw [hcd]
    rcases od with _ | d
    · exfalso
      unfold taxOutcome taxDelivery at ho
      rw [if_pos hsub, hd1] at ho
      exact absurd ho (by simp)
    · have hwd : d.webhook = w := createDelivery_webhook env et w _ false d hd1
      have hsd : schemeOk d.webhook := by rw [hwd]; exact hs
      have hparse : env.parse_tax_data (syncResult env d env.syncTimeout) n = some td := by
        unfold taxOutcome at ho
        unfold taxDelivery at ho
        rw [if_pos hsub, hd1] at ho
        exact ho
      have heff1 : eff1 = (create_delivery_for_subscription_sync_event env et w
          (env.get_pregenerated_subscription_payload w) false).2 := by rw [hcd]
      simp only [taxLoop, hsub, if_true, hcd, send_sync_eq_ok env d env.syncTimeout hsd,
          hparse]
      refine ⟨by trivial, ?_⟩
      simp [callUrls_append, heff1, callUrls_createDelivery, callUrls_okEffects, hwd]
  · have hsub' : strTruthy w.subscription_query = false := by
      revert hsub; cases strTruthy w.subscription_query <;> simp
    have hdel : taxDelivery env et gen w =
        some ⟨EventDeliveryStatus.pending, et, ⟨gen⟩, w⟩ := by
      unfold taxDelivery
      rw [hsub']
      simp
    have hparse : env.parse_tax_data
        (syncResult env ⟨EventDeliveryStatus.pending, et, ⟨gen⟩, w⟩ env.syncTimeout) n =
          some td := by
      unfold taxOutcome at ho
      rw [hdel] at ho
      exact ho
    have hss : schemeOk
        (⟨EventDeliveryStatus.pending, et, ⟨gen⟩, w⟩ : EventDelivery).webhook := hs
    rcases hep with rfl | rfl <;>
      simp only [taxLoop, hsub', Bool.false_eq_true, if_false,
        send_sync_eq_ok env _ env.syncTimeout hss, hparse] <;>
      exact ⟨by trivial, by simp [callUrls_append, callUrls_okEffects]⟩

theorem taxLoop_cons_abort (env : Env) (et gen : String) (n : Nat) (w : Webhook)
    (rest : List Webhook) (ep : Option EventPayload)
    (hsub : strTruthy w.subscription_query = true)
    (hfail : (create_delivery_for_subscription_sync_event env et w
        (env.get_pregenerated_subscription_payload w) false).1 = none) :
    (taxLoop env et gen n (w :: rest) ep).1 = Except.ok none ∧
    callUrls (taxLoop env et gen n (w :: rest) ep).2 = [] := by
  rcases hcd : create_delivery_for_subscription_sync_event env et w
      (env.get_pregenerated_subscription_payload w) false with ⟨od, eff1⟩
  have hod : od = none := by rw [hcd] at hfail; exact hfail
  subst hod
  have heff1 : eff1 = (create_delivery_for_subscription_sync_event env et w
      (env.get_pregenerated_subscription_payload w) false).2 := by rw [hcd]
  simp only [taxLoop, hsub, if_true, hcd]
  exact ⟨by trivial, by simp [heff1, callUrls_createDelivery]⟩

theorem taxLoop_peel (env : Env) (et gen : String) (n : Nat) (suf : List Webhook) :
    ∀ (pre : List Webhook) (ep : Option EventPayload),
      (ep = none ∨ ep = some ⟨gen⟩) →
      (∀ v ∈ pre, (taxDelivery env et gen v ≠ none ∧ schemeOk v) ∧
        taxOutcome env et gen n v = none) →
      ∃ ep2, (ep2 = none ∨ ep2 = some ⟨gen⟩) ∧
        (taxLoop env et gen n (pre ++ suf) ep).1 = (taxLoop env et gen n suf ep2).1 ∧
        callUrls (taxLoop env et gen n (pre ++ suf) ep).2 =
          pre.map (fun v => v.target_url) ++ callUrls (taxLoop env et gen n suf ep2).2 ∧
        warnCount (taxLoop env et gen n (pre ++ suf) ep).2 =
          pre.length + warnCount (taxLoop env et gen n suf ep2).2 := by
  intro pre
  induction pre with
  | nil =>
    intro ep hep _
    exact ⟨ep, hep, rfl, by simp, by simp⟩
  | cons v pre ih =>
    intro ep hep hpre
    have hv := hpre v (by simp)
    obtain ⟨ep1, hep1, h1, h2, h3⟩ := taxLoop_cons_invalid env et gen n v (pre ++ suf)
      ep hep hv.1.1 hv.1.2 hv.2
    obtain ⟨ep2, hep2, g1, g2, g3⟩ := ih ep1 hep1 fun u hu => hpre u (by simp [hu])
    refine ⟨ep2, hep2, ?_, ?_, ?_⟩
    · rw [List.cons_append]
      exact h1.trans g1
    · rw [List.cons_append, h2, g2]
      simp
    · rw [List.cons_append, h3, g3]
      simp
      omega

/-- C2: For every event type with a registered ordered sequence of webhooks
(each of which yields a buildable delivery and a well-formed target scheme),
the tax fallback loop tries the webhooks one at a time in registry order;
every schema-invalid response logs one warning and the loop continues; the
first webhook whose response parses as valid tax data makes the function
return that parsed result immediately with no later webhook contacted; and
when every webhook's response is invalid the function returns `none` with
each webhook attempted exactly once, in order. -/
theorem C2_tax_fallback_first_valid_wins (env : Env) (event_type gen : String) (n : Nat)
    (hok : ∀ w ∈ env.get_webhooks_for_event event_type,
      taxDelivery env event_type gen w ≠ none ∧ schemeOk w) :
    ((∀ w ∈ env.get_webhooks_for_event event_type,
        taxOutcome env event_type gen n w = none) →
      (trigger_taxes_all_webhooks_sync env event_type gen n).1 = Except.ok none ∧
      callUrls (trigger_taxes_all_webhooks_sync env event_type gen n).2 =
        (env.get_webhooks_for_event event_type).map (fun w => w.target_url) ∧
      warnCount (trigger_taxes_all_webhooks_sync env event_type gen n).2 =
        (env.get_webhooks_for_event event_type).length) ∧
    (∀ pre w post td, env.get_webhooks_for_event event_type = pre ++ w :: post →
      (∀ v ∈ pre, taxOutcome env event_type gen n v = none) →
      taxOutcome env event_type gen n w = some td →
      (trigger_taxes_all_webhooks_sync env event_type gen n).1 = Except.ok (some td) ∧
      callUrls (trigger_taxes_all_webhooks_sync env event_type gen n).2 =
        pre.map (fun v => v.target_url) ++ [w.target_url]) := by
  constructor
  · intro hall
    obtain ⟨ep2, _, h1, h2, h3⟩ := taxLoop_peel env event_type gen n []
      (env.get_webhooks_for_event event_type) none (Or.inl rfl)
      (fun v hv => ⟨hok v hv, hall v hv⟩)
    rw [List.append_nil] at h1 h2 h3
    unfold trigger_taxes_all_webhooks_sync
    refine ⟨?_, ?_, ?_⟩
    · rw [h1]
      simp [taxLoop]
    · rw [h2]
      simp [taxLoop, callUrls]
    · rw [h3]
      simp [taxLoop, warnCount]
  · intro pre w post td hsplit hpre hw
    obtain ⟨ep2, hep2, h1, h2, _⟩ := taxLoop_peel env event_type gen n (w :: post) pre
      none (Or.inl rfl)
      (fun v hv => ⟨hok v (by rw [hsplit]; exact List.mem_append_left _ hv), hpre v hv⟩)
    have hcv := taxLoop_cons_valid env event_type gen n w post ep2 td hep2
      (hok w (by rw [hsplit]; simp)).2 hw
    unfold trigger_taxes_all_webhooks_sync
    rw [hsplit]
    exact ⟨h1.trans hcv.1, by rw [h2, hcv.2]⟩

/-- C6: In the tax fallback loop, when delivery creation for a
subscription-query webhook yields no delivery (e.g. the subscription payload
generator produced no data), the function returns `none` immediately: that
webhook is never contacted over the network and no remaining webhook in the
sequence is tried — the loop performs exactly the calls of the preceding
webhooks and aborts. -/
theorem C6_tax_fallback_aborts_on_failed_delivery (env : Env) (et gen : String) (n : Nat)
    (pre : List Webhook) (w : Webhook) (post : List Webhook)
    (hreg : env.get_webhooks_for_event et = pre ++ w :: post)
    (hpre : ∀ v ∈ pre, (taxDelivery env et gen v ≠ none ∧ schemeOk v) ∧
      taxOutcome env et gen n v = none)
    (hsub : strTruthy w.subscription_query = true)
    (hfail : (create_delivery_for_subscription_sync_event env et w
        (env.get_pregenerated_subscription_payload w) false).1 = none) :
    (trigger_taxes_all_webhooks_sync env et gen n).1 = Except.ok none ∧
    callUrls (trigger_taxes_all_webhooks_sync env et gen n).2 =
      pre.map (fun v => v.target_url) := by
  obtain ⟨ep2, hep2, h1, h2, _⟩ := taxLoop_peel env et gen n (w :: post) pre none
    (Or.inl rfl) hpre
  have hab := taxLoop_cons_abort env et gen n w post ep2 hsub hfail
  unfold trigger_taxes_all_webhooks_sync
  rw [hreg]
  exact ⟨h1.trans hab.1, by rw [h2, hab.2, List.append_nil]⟩

/-- A SUCCESS final status means the content parsed as JSON. -/
theorem sendFinalResp_success (env : Env) (delivery : EventDelivery) (timeout : Nat)
    (h : (sendFinalResp env delivery timeout).status = EventDeliveryStatus.success) :
    sendParsed env delivery timeout ≠ none := by
  unfold sendFinalResp at h
  unfold sendParsed
  cases hp : env.parseJson (rawSendResult env delivery timeout).content <;>
    simp [hp] at h ⊢

/-! ### C1 -/

/-- C1 as frozen is false on the code: `json.loads` runs on the response
content regardless of the transport status, so a non-2xx response whose body
is valid JSON comes back from `_send_webhook_request_sync` with status FAILED
and a non-null parsed body.  Here: HTTP 400 with body `[1]`. -/
theorem C1_counterexample :
    (_send_webhook_request_sync env0 deliveryA 30 none).1 =
      Except.ok (⟨"[1]", EventDeliveryStatus.failed, some 400⟩,
        some (JVal.jarr [JLit.lnum 1])) ∧
    (⟨"[1]", EventDeliveryStatus.failed, some 400⟩ : WebhookResponse).status ≠
      EventDeliveryStatus.success ∧
    (some (JVal.jarr [JLit.lnum 1]) : Option JVal) ≠ none := by
  refine ⟨by rfl, by decide, by decide⟩

/-- C1 (amended): the parsed body in the pair returned by
`_send_webhook_request_sync` is exactly the JSON parse of the response
content: a 2xx response whose body is not valid JSON yields status FAILED
with no parsed body, a parse failure always comes with status FAILED, and a
SUCCESS status requires a transport-level success and comes with a non-null
parsed body — but a FAILED response whose content parses as JSON is returned
together with that parsed body (null-unless-SUCCESS only holds after the
`send_webhook_request_sync` wrapper). -/
theorem C1_parsed_body_tracks_json_parse (env : Env) (delivery : EventDelivery)
    (timeout : Nat) (attempt : Option String) (r : WebhookResponse) (pd : Option JVal)
    (h : (_send_webhook_request_sync env delivery timeout attempt).1 =
      Except.ok (r, pd)) :
    pd = env.parseJson (rawSendResult env delivery timeout).content ∧
    (pd = none → r.status = EventDeliveryStatus.failed) ∧
    (r.status = EventDeliveryStatus.success →
      (rawSendResult env delivery timeout).status = EventDeliveryStatus.success ∧
      pd ≠ none) := by
  have hs := _send_ok_schemeOk env delivery timeout attempt r pd h
  rw [_send_eq_ok env delivery timeout attempt hs] at h
  have hr : sendFinalResp env delivery timeout = r ∧
      sendParsed env delivery timeout = pd := by
    simpa using h
  obtain ⟨hr1, hr2⟩ := hr
  rw [← hr1, ← hr2]
  unfold sendFinalResp sendParsed
  cases hp : env.parseJson (rawSendResult env delivery timeout).content <;> simp [hp]

theorem C1_parsed_body_tracks_json_parse_witness :
    (some (JVal.jarr [JLit.lnum 1]) : Option JVal) =
      env0.parseJson (rawSendResult env0 deliveryA 30).content ∧
    ((⟨"[1]", EventDeliveryStatus.failed, some 400⟩ : WebhookResponse).status =
        EventDeliveryStatus.success →
      (rawSendResult env0 deliveryA 30).status = EventDeliveryStatus.success ∧
      (some (JVal.jarr [JLit.lnum 1]) : Option JVal) ≠ none) := by
  have h := C1_parsed_body_tracks_json_parse env0 deliveryA 30 none
    ⟨"[1]", EventDeliveryStatus.failed, some 400⟩ (some (JVal.jarr [JLit.lnum 1]))
    (by rfl)
  exact ⟨h.1, h.2.2⟩

/-! ### C3 -/

/-- C3: on a target url whose scheme (lowercased) is neither http nor https,
`_send_webhook_request_sync` marks the delivery FAILED, records the
external-request metric with the zero-success placeholder response, and
raises to the caller — with no network call and no attempt record created. -/
theorem C3_unsupported_scheme_fails_before_send (env : Env) (delivery : EventDelivery)
    (timeout : Nat) (attempt : Option String)
    (h : ¬ schemeOk delivery.webhook) :
    _send_webhook_request_sync env delivery timeout attempt =
      (Except.error "Unknown webhook scheme",
       [Effect.deliveryUpdate delivery EventDeliveryStatus.failed,
        Effect.recordExternalRequest delivery.webhook.target_url
          EventDeliveryStatus.failed]) ∧
    callUrls (_send_webhook_request_sync env delivery timeout attempt).2 = [] ∧
    (∀ tid ws, Effect.createAttempt tid ws ∉
      (_send_webhook_request_sync env delivery timeout attempt).2) := by
  have he := _send_eq_err env delivery timeout attempt h
  refine ⟨by rw [he]; rfl, by rw [he]; rfl, ?_⟩
  intro tid ws hmem
  rw [he] at hmem
  simp [errEffects] at hmem

theorem C3_unsupported_scheme_fails_before_send_witness :
    (¬ schemeOk deliveryF.webhook) ∧
    _send_webhook_request_sync env0 deliveryF 30 none =
      (Except.error "Unknown webhook scheme",
       [Effect.deliveryUpdate deliveryF EventDeliveryStatus.failed,
        Effect.recordExternalRequest deliveryF.webhook.target_url
          EventDeliveryStatus.failed]) :=
  ⟨by decide, (C3_unsupported_scheme_fails_before_send env0 deliveryF 30 none
    (by decide)).1⟩

/-! ### C5 -/

/-- C5: `send_webhook_request_sync` hands the business layer the parsed body
when and only when the dispatch status is SUCCESS, and `none` in every other
case; the raw `WebhookResponse` is dropped from its return value. -/
theorem C5_wrapper_returns_body_iff_success (env : Env) (delivery : EventDelivery)
    (timeout : Nat) (r : WebhookResponse) (pd : Option JVal) (eff : List Effect)
    (h : _send_webhook_request_sync env delivery timeout none = (Except.ok (r, pd), eff)) :
    send_webhook_request_sync env delivery timeout =
      (Except.ok (if r.status = EventDeliveryStatus.success then pd else none), eff) ∧
    (r.status = EventDeliveryStatus.success → pd ≠ none) ∧
    ((if r.status = EventDeliveryStatus.success then pd else none) ≠ none ↔
      r.status = EventDeliveryStatus.success) := by
  have h1 : (_send_webhook_request_sync env delivery timeout none).1 =
      Except.ok (r, pd) := by rw [h]
  have hs := _send_ok_schemeOk env delivery timeout none r pd h1
  have hw : send_webhook_request_sync env delivery timeout =
      (Except.ok (if r.status = EventDeliveryStatus.success then pd else none), eff) := by
    unfold send_webhook_request_sync
    rw [h]
  have hsucc : r.status = EventDeliveryStatus.success → pd ≠ none := by
    intro hst
    rw [_send_eq_ok env delivery timeout none hs] at h
    have hr : (r = sendFinalResp env delivery timeout ∧
        pd = sendParsed env delivery timeout) ∧
        eff = okEffects env delivery timeout none := by
      simpa using h.symm
    rw [hr.1.2]
    exact sendFinalResp_success env delivery timeout (by rw [← hr.1.1]; exact hst)
  refine ⟨hw, hsucc, ?_⟩
  by_cases hst : r.status = EventDeliveryStatus.success
  · simp [hst, hsucc hst]
  · simp [hst]

theorem C5_wrapper_returns_body_iff_success_witness :
    send_webhook_request_sync envOk deliveryA 30 =
      (Except.ok (some (JVal.jarr [JLit.lnum 1])), okEffects envOk deliveryA 30 none) := by
  have h := (C5_wrapper_returns_body_iff_success envOk deliveryA 30
      ⟨"[1]", EventDeliveryStatus.success, some 200⟩ (some (JVal.jarr [JLit.lnum 1]))
      (okEffects envOk deliveryA 30 none) (by rfl)).1
  simpa using h

/-! ### C4 -/

/-- A freshly set cache entry is returned by `cache.get` while it has not
expired. -/
theorem cacheGet_cacheSet_hit (st : CacheState) (k : CacheKey) (v : JVal)
    (T now t : Nat) (h : t < now + T) :
    cacheGet (cacheSet st k v T now) k t = some v := by
  unfold cacheGet cacheSet
  rw [List.find?_cons_of_pos]
  · rfl
  · simp [h]

/-- Equation lemma: `trigger_webhook_sync` on a subscription webhook whose
delivery could not be built. -/
theorem trigger_sync_eq_sub_none (env : Env) (event_type payload : String)
    (w : Webhook) (rt : Option Nat) (pre : Option PyDict) (eff1 : List Effect)
    (hsub : strTruthy w.subscription_query = true)
    (hcd : create_delivery_for_subscription_sync_event env event_type w pre false =
      (none, eff1)) :
    trigger_webhook_sync env event_type payload w rt pre = (Except.ok none, eff1) := by
  unfold trigger_webhook_sync
  rw [if_pos hsub, hcd]

/-- Equation lemma: `trigger_webhook_sync` on a subscription webhook whose
delivery was built. -/
theorem trigger_sync_eq_sub_some (env : Env) (event_type payload : String)
    (w : Webhook) (rt : Option Nat) (pre : Option PyDict) (d : EventDelivery)
    (eff1 : List Effect)
    (hsub : strTruthy w.subscription_query = true)
    (hcd : create_delivery_for_subscription_sync_event env event_type w pre false =
      (some d, eff1)) :
    trigger_webhook_sync env event_type payload w rt pre =
      ((send_webhook_request_sync env d (natOrDefault rt env.syncTimeout)).1,
       eff1 ++ (send_webhook_request_sync env d (natOrDefault rt env.syncTimeout)).2) := by
  unfold trigger_webhook_sync
  rw [if_pos hsub, hcd]

/-- Equation lemma: `trigger_webhook_sync` on a non-subscription webhook. -/
theorem trigger_sync_eq_static (env : Env) (event_type payload : String)
    (w : Webhook) (rt : Option Nat) (pre : Option PyDict)
    (hsub : strTruthy w.subscription_query = false) :
    trigger_webhook_sync env event_type payload w rt pre =
      send_webhook_request_sync env
        ⟨EventDeliveryStatus.pending, event_type, ⟨payload⟩, w⟩
        (natOrDefault rt env.syncTimeout) := by
  unfold trigger_webhook_sync
  rw [if_neg (by simp [hsub])]
  rcases hs2 : send_webhook_request_sync env
      ⟨EventDeliveryStatus.pending, event_type, ⟨payload⟩, w⟩
      (natOrDefault rt env.syncTimeout) with ⟨r, eff2⟩
  simp [hs2]

/-- A dispatch through `trigger_webhook_sync` that produced a body made
exactly one network call, to the webhook's target url. -/
theorem trigger_webhook_sync_some_calls (env : Env) (event_type payload : String)
    (w : Webhook) (rt : Option Nat) (pre : Option PyDict) (v : JVal)
    (eff : List Effect)
    (h : trigger_webhook_sync env event_type payload w rt pre =
      (Except.ok (some v), eff)) :
    callUrls eff = [w.target_url] := by
  by_cases hsub : strTruthy w.subscription_query = true
  · rcases hcd : create_delivery_for_subscription_sync_event env event_type w pre false
      with ⟨od, eff1⟩
    rcases od with _ | d
    · rw [trigger_sync_eq_sub_none env event_type payload w rt pre eff1 hsub hcd] at h
      exact absurd h (by simp)
    · rw [trigger_sync_eq_sub_some env event_type payload w rt pre d eff1 hsub hcd] at h
      have hd1 : (create_delivery_for_subscription_sync_event env event_type w
          pre false).1 = some d := by rw [hcd]
      have hwd : d.webhook = w := createDelivery_webhook env event_type w pre false d hd1
      by_cases hs : schemeOk d.webhook
      · rw [send_sync_eq_ok env d (natOrDefault rt env.syncTimeout) hs] at h
        have heff : eff = eff1 ++ okEffects env d (natOrDefault rt env.syncTimeout) none := by
          have h2 := h.symm
          simp at h2
          exact h2.2
        have heff1 : eff1 = (create_delivery_for_subscription_sync_event env event_type w
            pre false).2 := by rw [hcd]
        rw [heff, callUrls_append, heff1, callUrls_createDelivery, callUrls_okEffects, hwd]
        rfl
      · rw [send_sync_eq_err env d (natOrDefault rt env.syncTimeout) hs] at h
        exact absurd h (by simp)
  · have hsub2 : strTruthy w.subscription_query = false := by
      revert hsub; cases strTruthy w.subscription_query <;> simp
    rw [trigger_sync_eq_static env event_type payload w rt pre hsub2] at h
    by_cases hs : schemeOk
      (⟨EventDeliveryStatus.pending, event_type, ⟨payload⟩, w⟩ : EventDelivery).webhook
    · rw [send_sync_eq_ok env _ (natOrDefault rt env.syncTimeout) hs] at h
      have heff : eff = okEffects env
          ⟨EventDeliveryStatus.pending, event_type, ⟨payload⟩, w⟩
          (natOrDefault rt env.syncTimeout) none := by
        have h2 := h.symm
        simp at h2
        exact h2.2
      rw [heff, callUrls_okEffects]
    · rw [send_sync_eq_err env _ (natOrDefault rt env.syncTimeout) hs] at h
      exact absurd h (by simp)

/-- Equation lemma: a cache hit returns the cached body and does nothing
else. -/
theorem trigger_cached_eq_hit (env : Env) (event_type payload : String)
    (w : Webhook) (cache_data : PyDict) (rt ct : Option Nat) (pre : Option PyDict)
    (now : Nat) (st : CacheState) (v : JVal)
    (hm : cacheGet st ⟨cache_data, w.target_url, event_type, w.app_id⟩ now = some v) :
    trigger_webhook_sync_if_not_cached env event_type payload w cache_data rt ct pre
      now st = (Except.ok (some v), st, []) := by
  unfold trigger_webhook_sync_if_not_cached
  simp only [hm]

/-- Equation lemma: a cache miss dispatches and stores a non-null body. -/
theorem trigger_cached_eq_miss (env : Env) (event_type payload : String)
    (w : Webhook) (cache_data : PyDict) (rt ct : Option Nat) (pre : Option PyDict)
    (now : Nat) (st : CacheState) (res : Except String (Option JVal))
    (eff : List Effect)
    (hm : cacheGet st ⟨cache_data, w.target_url, event_type, w.app_id⟩ now = none)
    (hd : trigger_webhook_sync env event_type payload w rt pre = (res, eff)) :
    trigger_webhook_sync_if_not_cached env event_type payload w cache_data rt ct pre
      now st =
      (match res with
       | Except.error e => (Except.error e, st, eff)
       | Except.ok none => (Except.ok none, st, eff)
       | Except.ok (some v) =>
         (Except.ok (some v),
          cacheSet st ⟨cache_data, w.target_url, event_type, w.app_id⟩ v
            (natOrDefault ct env.cacheDefaultTimeout) now, eff)) := by
  unfold trigger_webhook_sync_if_not_cached
  simp only [hm, hd]
  rcases res with e | od
  · rfl
  · rcases od with _ | v <;> rfl

/-- C4: two calls to `trigger_webhook_sync_if_not_cached` with the same
`(cache_data, target_url, event_type, app_id)` key, the first a cache miss
that produced a non-null body, the second within the resolved cache timeout,
perform exactly one underlying dispatch: the second call returns the cached
body with no effect at all (no network call, no delivery record) and leaves
the cache unchanged; and a null dispatch result is never stored in the
cache. -/
theorem C4_cache_idempotence (env : Env) (event_type payload : String)
    (webhook : Webhook) (cache_data : PyDict)
    (request_timeout cache_timeout : Option Nat) (pre : Option PyDict) :
    (∀ t0 t1 st0 st1 v eff1,
      cacheGet st0 ⟨cache_data, webhook.target_url, event_type, webhook.app_id⟩
        t0 = none →
      trigger_webhook_sync_if_not_cached env event_type payload webhook cache_data
        request_timeout cache_timeout pre t0 st0 = (Except.ok (some v), st1, eff1) →
      t1 < t0 + natOrDefault cache_timeout env.cacheDefaultTimeout →
      trigger_webhook_sync_if_not_cached env event_type payload webhook cache_data
        request_timeout cache_timeout pre t1 st1 = (Except.ok (some v), st1, []) ∧
      callUrls eff1 = [webhook.target_url]) ∧
    (∀ st t, cacheGet st ⟨cache_data, webhook.target_url, event_type, webhook.app_id⟩
        t = none →
      (trigger_webhook_sync env event_type payload webhook request_timeout pre).1 =
        Except.ok none →
      (trigger_webhook_sync_if_not_cached env event_type payload webhook cache_data
        request_timeout cache_timeout pre t st).2.1 = st) := by
  constructor
  · intro t0 t1 st0 st1 v eff1 hmiss h1 ht
    rcases htw : trigger_webhook_sync env event_type payload webhook request_timeout pre
      with ⟨res, eff⟩
    rw [trigger_cached_eq_miss env event_type payload webhook cache_data request_timeout
      cache_timeout pre t0 st0 res eff hmiss htw] at h1
    rcases res with e | od
    · exact absurd h1 (by simp)
    rcases od with _ | u
    · exact absurd h1 (by simp)
    have h2 := h1.symm
    simp only [Prod.mk.injEq] at h2
    obtain ⟨hv, hst1, heff1⟩ := h2
    have hv2 : u = v := by
      have h3 := hv
      simp at h3
      exact h3.symm
    subst hv2
    refine ⟨?_, ?_⟩
    · rw [trigger_cached_eq_hit env event_type payload webhook cache_data request_timeout
        cache_timeout pre t1 st1 u ?hit]
      case hit =>
        rw [hst1]
        exact cacheGet_cacheSet_hit st0 _ u _ t0 t1 ht
    · rw [heff1]
      exact trigger_webhook_sync_some_calls env event_type payload webhook request_timeout
        pre u eff htw
  · intro st t hm hnull
    rcases htw2 : trigger_webhook_sync env event_type payload webhook request_timeout pre
      with ⟨res2, eff2⟩
    have hres2 : res2 = Except.ok none := by
      rw [htw2] at hnull
      exact hnull
    subst hres2
    rw [trigger_cached_eq_miss env event_type payload webhook cache_data request_timeout
      cache_timeout pre t st (Except.ok none) eff2 hm htw2]

/-! ### C7 -/

/-- C7: in `handle_transaction_request_task`, a dispatched response carrying
an HTTP status code of 500 or more triggers the task framework's retry
mechanism with exponential backoff while the maximum retry count is not
exhausted, and the parsed response of that attempt is discarded — no
transaction event is created from it; on any outcome below 500 (client error
or success) the response is converted into a finalized transaction event and
no retry is scheduled. -/
theorem C7_task_retries_on_server_error (env : Env) (task : CeleryTask)
    (re : Nat) (dl : EventDelivery) (r : WebhookResponse) (pd : Option JVal)
    (eff : List Effect)
    (hsend : _send_webhook_request_sync env dl env.syncTimeout (some "task-id") =
      (Except.ok (r, pd), eff)) :
    ((∃ c, r.response_status_code = some c ∧ 500 ≤ c) →
      task.retries < task.max_retries →
      (handle_transaction_request_task env task (some re) (some dl)).1 =
        TaskOutcome.retried (task.retry_backoff * 2 ^ task.retries) ∧
      Effect.scheduleRetry (task.retry_backoff * 2 ^ task.retries) ∈
        (handle_transaction_request_task env task (some re) (some dl)).2 ∧
      (∀ d, Effect.createTransactionEvent d ∉
        (handle_transaction_request_task env task (some re) (some dl)).2)) ∧
    ((∀ c, r.response_status_code = some c → c < 500) →
      (handle_transaction_request_task env task (some re) (some dl)).1 =
        TaskOutcome.completed pd ∧
      Effect.createTransactionEvent pd ∈
        (handle_transaction_request_task env task (some re) (some dl)).2 ∧
      (∀ cd, Effect.scheduleRetry cd ∉
        (handle_transaction_request_task env task (some re) (some dl)).2)) := by
  have h1 : (_send_webhook_request_sync env dl env.syncTimeout (some "task-id")).1 =
      Except.ok (r, pd) := by rw [hsend]
  have hs := _send_ok_schemeOk env dl env.syncTimeout (some "task-id") r pd h1
  have hE := _send_eq_ok env dl env.syncTimeout (some "task-id") hs
  have heff : eff = okEffects env dl env.syncTimeout (some "task-id") := by
    have h2 := hE.symm.trans hsend
    have h3 : (r = sendFinalResp env dl env.syncTimeout ∧
        pd = sendParsed env dl env.syncTimeout) ∧
        eff = okEffects env dl env.syncTimeout (some "task-id") := by
      simpa using h2.symm
    exact h3.2
  constructor
  · rintro ⟨c, hc, hc5⟩ hretries
    have hser : (match r.response_status_code with
        | some code => decide (500 ≤ code)
        | none => false) = true := by
      rw [hc]
      simpa using hc5
    have hret : handle_webhook_retry task =
        some (task.retry_backoff * 2 ^ task.retries) := by
      unfold handle_webhook_retry
      rw [if_pos hretries]
    have htask : handle_transaction_request_task env task (some re) (some dl) =
        (TaskOutcome.retried (task.retry_backoff * 2 ^ task.retries),
         [Effect.createAttempt (some "task-id") true] ++ eff ++
           [Effect.scheduleRetry (task.retry_backoff * 2 ^ task.retries)]) := by
      simp only [handle_transaction_request_task, hsend, hser, if_true, hret]
    rw [htask]
    refine ⟨rfl, by simp, ?_⟩
    intro d hd
    simp only [List.mem_append, List.mem_singleton] at hd
    rcases hd with (hd | hd) | hd
    · simp at hd
    · rw [heff] at hd
      exact createTransactionEvent_not_in_okEffects env dl env.syncTimeout
        (some "task-id") d hd
    · simp at hd
  · intro hlt
    have hser : (match r.response_status_code with
        | some code => decide (500 ≤ code)
        | none => false) = false := by
      rcases hc : r.response_status_code with _ | c
      · rfl
      · simpa using Nat.not_le.mpr (hlt c hc)
    have htask : handle_transaction_request_task env task (some re) (some dl) =
        (TaskOutcome.completed pd,
         [Effect.createAttempt (some "task-id") true] ++ eff ++
           [Effect.createTransactionEvent pd]) := by
      simp only [handle_transaction_request_task, hsend, hser, Bool.false_eq_true,
        if_false]
    rw [htask]
    refine ⟨rfl, by simp, ?_⟩
    intro cd hd
    simp only [List.mem_append, List.mem_singleton] at hd
    rcases hd with (hd | hd) | hd
    · simp at hd
    · rw [heff] at hd
      exact scheduleRetry_not_in_okEffects env dl env.syncTimeout
        (some "task-id") cd hd
    · simp at hd

/-! ### C8 -/

/-- C8: `trigger_transaction_request` with a transaction that has no owning
app, or whose app has no registered webhook for the event type, synthesizes a
failed transaction event, recomputes the checkout's refundable amount, and
returns — with no network call, no persisted delivery and no scheduled
task. -/
theorem C8_transaction_request_early_failure (env : Env)
    (transaction_data : TransactionActionData) (event_type : String)
    (h : transaction_data.transaction_app_owner = none ∨
      (∃ pk, transaction_data.transaction_app_owner = some pk ∧
        env.get_webhook_for_app pk event_type = none)) :
    (∃ cause, trigger_transaction_request env transaction_data event_type =
      [Effect.createFailedTransactionEvent cause, Effect.recalcRefundable]) ∧
    callUrls (trigger_transaction_request env transaction_data event_type) = [] ∧
    (∀ rs, Effect.dbWrite rs ∉ trigger_transaction_request env transaction_data
      event_type) ∧
    Effect.scheduleTask ∉ trigger_transaction_request env transaction_data
      event_type := by
  have hmain : ∃ cause, trigger_transaction_request env transaction_data event_type =
      [Effect.createFailedTransactionEvent cause, Effect.recalcRefundable] := by
    rcases h with hnone | ⟨pk, hpk, hwk⟩
    · refine ⟨"transaction-not-attached-to-app", ?_⟩
      unfold trigger_transaction_request
      rw [hnone]
    · refine ⟨"cannot-find-webhook", ?_⟩
      unfold trigger_transaction_request
      rw [hpk]
      simp only [hwk]
  obtain ⟨cause, hc⟩ := hmain
  refine ⟨⟨cause, hc⟩, by rw [hc]; rfl, ?_, by rw [hc]; simp⟩
  intro rs hmem
  rw [hc] at hmem
  simp at hmem

/-! ### C9 -/

/-- Every atomic write group emitted by the delivery factory holds both the
payload and the delivery. -/
theorem createDelivery_dbWrite (env : Env) (event_type : String) (w : Webhook)
    (pre : Option PyDict) (s : Bool) (rs : List DbRecord)
    (hmem : Effect.dbWrite rs ∈
      (create_delivery_for_subscription_sync_event env event_type w pre s).2) :
    (∃ p, DbRecord.payloadRec p ∈ rs) ∧ (∃ d, DbRecord.deliveryRec d ∈ rs) := by
  unfold create_delivery_for_subscription_sync_event at hmem
  by_cases ht : event_type ∈ env.typesMap
  · rw [if_pos ht] at hmem
    rcases hd : (if dictTruthy pre then pre
      else env.generateFromSubscription event_type w) with _ | ⟨_ | ⟨kv, rest⟩⟩ <;>
      rw [hd] at hmem
    · simp at hmem
    · simp at hmem
    · rcases s with _ | _
      · simp at hmem
      · simp at hmem
        subst hmem
        refine ⟨⟨⟨env.dumps (kv :: rest)⟩, ?_⟩,
          ⟨⟨EventDeliveryStatus.pending, event_type, ⟨env.dumps (kv :: rest)⟩, w⟩, ?_⟩⟩ <;>
          simp
  · rw [if_neg ht] at hmem
    simp at hmem

/-- C9: wherever this module persists a delivery — the factory with
`with_save` and both branches of `trigger_transaction_request` — every
database write group holds the `EventPayload` together with its
`EventDelivery`, so either both records are written or neither is. -/
theorem C9_payload_delivery_written_atomically (env : Env) (event_type : String)
    (w : Webhook) (pre : Option PyDict)
    (transaction_data : TransactionActionData) :
    (∀ rs, Effect.dbWrite rs ∈
        (create_delivery_for_subscription_sync_event env event_type w pre true).2 →
      (∃ p, DbRecord.payloadRec p ∈ rs) ∧ (∃ d, DbRecord.deliveryRec d ∈ rs)) ∧
    (∀ rs, Effect.dbWrite rs ∈ trigger_transaction_request env transaction_data
        event_type →
      (∃ p, DbRecord.payloadRec p ∈ rs) ∧ (∃ d, DbRecord.deliveryRec d ∈ rs)) := by
  constructor
  · intro rs hmem
    exact createDelivery_dbWrite env event_type w pre true rs hmem
  · intro rs hmem
    unfold trigger_transaction_request at hmem
    rcases ho : transaction_data.transaction_app_owner with _ | pk
    · simp only [ho] at hmem
      simp at hmem
    · simp only [ho] at hmem
      rcases hw : env.get_webhook_for_app pk event_type with _ | webhook
      · simp only [hw] at hmem
        simp at hmem
      · simp only [hw] at hmem
        by_cases hsub : strTruthy webhook.subscription_query = true
        · rw [if_pos hsub] at hmem
          rcases hcd : create_delivery_for_subscription_sync_event env event_type
            webhook none true with ⟨od, eff⟩
          simp only [hcd] at hmem
          have heff : eff = (create_delivery_for_subscription_sync_event env event_type
              webhook none true).2 := by rw [hcd]
          rcases od with _ | d <;>
            rw [List.mem_append] at hmem <;>
            rcases hmem with hmem | hmem <;>
              first
                | (exact createDelivery_dbWrite env event_type webhook none true rs
                    (heff ▸ hmem))
                | simp at hmem
        · rw [if_neg hsub] at hmem
          simp at hmem
          subst hmem
          refine ⟨⟨⟨env.generate_transaction_action_request_payload⟩, ?_⟩,
            ⟨⟨EventDeliveryStatus.pending, event_type,
              ⟨env.generate_transaction_action_request_payload⟩, webhook⟩, ?_⟩⟩ <;>
            simp

/-! ### C10 -/

theorem dictTruthy_none : dictTruthy none = false := rfl

theorem dictTruthy_some_nil : dictTruthy (some []) = false := rfl

theorem dictTruthy_some_cons (kv : String × JVal) (rest : PyDict) :
    dictTruthy (some (kv :: rest)) = true := rfl

/-- C10: the delivery factory returns `None` (creating nothing, only
logging, raising nothing) in exactly two cases: the event type is not
subscribable, or the effective payload data is empty — i.e. no truthy
pregenerated payload was supplied and the subscription generator produced no
(truthy) data. -/
theorem C10_factory_null_cases (env : Env) (event_type : String) (w : Webhook)
    (pre : Option PyDict) (with_save : Bool) :
    ((create_delivery_for_subscription_sync_event env event_type w pre with_save).1 =
        none ↔
      (event_type ∉ env.typesMap ∨
        (dictTruthy pre = false ∧
          dictTruthy (env.generateFromSubscription event_type w) = false))) ∧
    ((create_delivery_for_subscription_sync_event env event_type w pre with_save).1 =
        none →
      ∃ tag, (create_delivery_for_subscription_sync_event env event_type w pre
        with_save).2 = [Effect.logInfo tag]) := by
  unfold create_delivery_for_subscription_sync_event
  by_cases ht : event_type ∈ env.typesMap
  · rw [if_pos ht]
    by_cases hp : dictTruthy pre = true
    · have hpre : (if dictTruthy pre then pre
          else env.generateFromSubscription event_type w) = pre := by
        rw [if_pos hp]
      rw [hpre]
      rcases pre with _ | ⟨_ | ⟨kv, rest⟩⟩
      · simp [dictTruthy] at hp
      · simp [dictTruthy] at hp
      · constructor
        · simp [ht, hp]
        · intro hnone
          simp at hnone
    · have hp2 : dictTruthy pre = false := by
        revert hp; cases dictTruthy pre <;> simp
      have hpre : (if dictTruthy pre then pre
          else env.generateFromSubscription event_type w) =
          env.generateFromSubscription event_type w := by
        rw [if_neg (by simp [hp2])]
      rw [hpre]
      rcases hgen : env.generateFromSubscription event_type w with _ | ⟨_ | ⟨kv, rest⟩⟩
      · exact ⟨by simp [ht, hp2, dictTruthy_none],
          fun _ => ⟨"no-payload-generated", rfl⟩⟩
      · exact ⟨by simp [ht, hp2, dictTruthy_some_nil],
          fun _ => ⟨"no-payload-generated", rfl⟩⟩
      · constructor
        · simp [ht, hp2, dictTruthy_some_cons]
        · intro hnone
          simp at hnone
  · rw [if_neg ht]
    constructor
    · simp [ht]
    · intro _
      exact ⟨"event-not-subscribable", rfl⟩

/-! ### Witnesses for the remaining claims -/

theorem C2_tax_fallback_first_valid_wins_witness :
    (trigger_taxes_all_webhooks_sync envTax "tax-event" "p" 1).1 =
      Except.ok (some ⟨JVal.jarr [JLit.lnum 1]⟩) ∧
    callUrls (trigger_taxes_all_webhooks_sync envTax "tax-event" "p" 1).2 =
      [urlA, urlB] := by
  have h := (C2_tax_fallback_first_valid_wins envTax "tax-event" "p" 1 (by decide)).2
    [webhookStatic] webhookStatic2 [] ⟨JVal.jarr [JLit.lnum 1]⟩ rfl (by decide) (by decide)
  refine ⟨h.1, ?_⟩
  rw [h.2]
  rfl

theorem C4_cache_idempotence_witness :
    trigger_webhook_sync_if_not_cached envOk "tax-event" "body" webhookStatic []
      none none none 10
      ⟨[(⟨[], urlA, "tax-event", 1⟩, JVal.jarr [JLit.lnum 1], 60)]⟩ =
      (Except.ok (some (JVal.jarr [JLit.lnum 1])),
       ⟨[(⟨[], urlA, "tax-event", 1⟩, JVal.jarr [JLit.lnum 1], 60)]⟩, []) :=
  ((C4_cache_idempotence envOk "tax-event" "body" webhookStatic []
      none none none).1 0 10 ⟨[]⟩
      ⟨[(⟨[], urlA, "tax-event", 1⟩, JVal.jarr [JLit.lnum 1], 60)]⟩
      (JVal.jarr [JLit.lnum 1]) (okEffects envOk deliveryA 30 none)
      (by rfl) (by rfl) (by decide)).1

theorem C6_tax_fallback_aborts_on_failed_delivery_witness :
    (trigger_taxes_all_webhooks_sync envAbort "tax-event" "p" 1).1 = Except.ok none ∧
    callUrls (trigger_taxes_all_webhooks_sync envAbort "tax-event" "p" 1).2 = [] := by
  have h := C6_tax_fallback_aborts_on_failed_delivery envAbort "tax-event" "p" 1
    [] webhookSub [] rfl (by simp) (by decide) (by rfl)
  exact ⟨h.1, by rw [h.2]; rfl⟩

theorem C7_task_retries_on_server_error_witness :
    (handle_transaction_request_task env503 task0 (some 1) (some deliveryA)).1 =
      TaskOutcome.retried 10 ∧
    (∀ d, Effect.createTransactionEvent d ∉
      (handle_transaction_request_task env503 task0 (some 1) (some deliveryA)).2) := by
  have h := (C7_task_retries_on_server_error env503 task0 1 deliveryA
      ⟨"[1]", EventDeliveryStatus.failed, some 503⟩ (some (JVal.jarr [JLit.lnum 1]))
      (okEffects env503 deliveryA env503.syncTimeout (some "task-id")) (by rfl)).1
      ⟨503, rfl, by norm_num⟩ (by decide)
  refine ⟨?_, h.2.2⟩
  rw [h.1]
  rfl

theorem C8_transaction_request_early_failure_witness :
    (∃ cause, trigger_transaction_request env0 ⟨none⟩ "tax-event" =
      [Effect.createFailedTransactionEvent cause, Effect.recalcRefundable]) ∧
    callUrls (trigger_transaction_request env0 ⟨none⟩ "tax-event") = [] := by
  have h := C8_transaction_request_early_failure env0 ⟨none⟩ "tax-event" (Or.inl rfl)
  exact ⟨h.1, h.2.1⟩

theorem C9_payload_delivery_written_atomically_witness :
    (∃ p, DbRecord.payloadRec p ∈
      [DbRecord.payloadRec ⟨"static-payload"⟩,
       DbRecord.deliveryRec ⟨EventDeliveryStatus.pending, "tax-event",
         ⟨"static-payload"⟩, webhookStatic⟩]) ∧
    (∃ d, DbRecord.deliveryRec d ∈
      [DbRecord.payloadRec ⟨"static-payload"⟩,
       DbRecord.deliveryRec ⟨EventDeliveryStatus.pending, "tax-event",
         ⟨"static-payload"⟩, webhookStatic⟩]) :=
  (C9_payload_delivery_written_atomically envTrans "tax-event" webhookStatic none
    ⟨some 7⟩).2
    [DbRecord.payloadRec ⟨"static-payload"⟩,
     DbRecord.deliveryRec ⟨EventDeliveryStatus.pending, "tax-event",
       ⟨"static-payload"⟩, webhookStatic⟩]
    (by decide)

theorem C10_factory_null_cases_witness :
    (create_delivery_for_subscription_sync_event env0 "other-event" webhookSub none
      true).1 = none :=
  (C10_factory_null_cases env0 "other-event" webhookSub none true).1.mpr
    (Or.inl (by decide))

end SaleorSyncTransport
